import Mathlib

/-!
Verification of the TeslaCastingLookup repository.

The repository consists of a FastAPI Data Service (`main.py`) over a
single-table SQLite store of casting records, and a Flask Presentation
Layer (`web_app.py`) that proxies it; a near-duplicate copy of each file
lives under `src/`.  This development shallowly embeds both layers:

* the store is a `List Record` (the rows of the `castings` table);
* each SQL statement executed by a handler becomes a pure function on the
  store that also returns the store it leaves behind (all statements are
  `SELECT`s);
* SQLite's `LIKE` operator (with `%`/`_` wildcards, ASCII-case-insensitive)
  is modelled by `likeMatch`;
* the Python `try/except sqlite3.Error/finally: conn.close()` shape of each
  handler is modelled by a `DbBehavior` parameter describing whether the
  connection attempt or the query fails, and a `Run` result recording the
  handler's exit, whether a connection was opened and closed, and the final
  store;
* the Flask routes become pure functions from the submitted form data and
  the observed Data Service outcome to the rendered template variables.
-/

namespace TeslaCasting

/-- ASCII lower-casing, the case folding SQLite applies to both operands of
`LIKE` (SQLite's default `LIKE` is case-insensitive for ASCII only). -/
def asciiLower (c : Char) : Char :=
  if 'A' ≤ c ∧ c ≤ 'Z' then Char.ofNat (c.toNat + 32) else c

/-- A row of the `castings` table, per the schema in `db_setup.py`:
`casting` is the TEXT primary key; the loader always supplies a string for
`comments` (defaulting to the empty string). -/
structure Record where
  casting : String
  years : String
  cid : String
  low_power : String
  high_power : String
  main_caps : String
  comments : String
deriving DecidableEq, Repr

/-- The projection `{casting, years, cid}` selected by the `/castings`
handler's page query. -/
structure Summary where
  casting : String
  years : String
  cid : String
deriving DecidableEq, Repr

/-- Projection of a full row to the three columns of the `/castings` page
query. -/
def proj (r : Record) : Summary :=
  ⟨r.casting, r.years, r.cid⟩

/-- Lexicographic comparison of character lists by code point, the order
SQLite's BINARY collation induces on TEXT values (byte order of UTF-8
agrees with code-point order). -/
def charListLe : List Char → List Char → Bool
  | [], _ => true
  | _ :: _, [] => false
  | a :: as, b :: bs =>
    if a.toNat < b.toNat then true
    else if b.toNat < a.toNat then false
    else charListLe as bs

/-- Row order used by both `ORDER BY casting` queries: ascending on the key
column under BINARY collation. -/
def keyLe (a b : Record) : Prop :=
  charListLe a.casting.data b.casting.data = true

instance : DecidableRel keyLe := fun a b =>
  inferInstanceAs (Decidable (charListLe a.casting.data b.casting.data = true))

/-- Result set of an `ORDER BY casting` query: the rows of the store sorted
ascending by key. -/
def sortByKey (rs : List Record) : List Record :=
  rs.insertionSort keyLe

/-- SQLite `LIKE` pattern matching, as applied by the `/search` handler's
`WHERE ... LIKE ?` clauses: `%` matches any (possibly empty) sequence of
characters, `_` matches exactly one character, and every other pattern
character matches ASCII-case-insensitively. -/
def likeMatch : List Char → List Char → Bool
  | [], s => s.isEmpty
  | p :: ps, s =>
    if p = '%' then s.tails.any (fun t => likeMatch ps t)
    else
      match s with
      | [] => false
      | c :: cs =>
        (if p = '_' then true else asciiLower p == asciiLower c) && likeMatch ps cs

/-- The pattern the handler builds with `query = f"%{q}%"`. -/
def likePat (q : String) : List Char :=
  '%' :: (q.data ++ ['%'])

/-- One `LIKE` test of the `/search` query against one column value. -/
def fieldLike (q field : String) : Bool :=
  likeMatch (likePat q) field.data

/-- The `WHERE casting LIKE ? OR cid LIKE ? OR years LIKE ? OR comments
LIKE ?` predicate of the `/search` handler, columns in source order. -/
def rowMatches (q : String) (r : Record) : Bool :=
  fieldLike q r.casting || fieldLike q r.cid || fieldLike q r.years || fieldLike q r.comments

/-- Execution of `SELECT ... FROM castings WHERE casting = ?` followed by
`fetchone()`: the first row whose key equals the argument exactly (SQLite
`=` on TEXT is case-sensitive), and the store left behind. -/
def selectByKey (store : List Record) (key : String) : Option Record × List Record :=
  (store.find? (fun r => r.casting == key), store)

/-- Execution of `SELECT COUNT(*) FROM castings`. -/
def selectCount (store : List Record) : Nat × List Record :=
  (store.length, store)

/-- Execution of `SELECT casting, years, cid FROM castings ORDER BY casting
LIMIT ? OFFSET ?` followed by `fetchall()`. -/
def selectPage (store : List Record) (limit offset : Nat) : List Summary × List Record :=
  ((((sortByKey store).drop offset).take limit).map proj, store)

/-- Execution of the `/search` handler's `SELECT ... WHERE ... LIKE ...
ORDER BY casting` followed by `fetchall()`. -/
def selectSearch (store : List Record) (q : String) : List Record × List Record :=
  ((sortByKey store).filter (rowMatches q), store)

/-- Behaviour of the SQLite layer during one request: the connection and
all statements succeed, `sqlite3.connect` itself raises `sqlite3.Error`, or
a statement raises `sqlite3.Error` after the connection was opened. -/
inductive DbBehavior
  | ok
  | connectFail
  | queryFail
deriving DecidableEq

/-- How a FastAPI handler exits: a JSON value returned normally, an
`HTTPException` raised on purpose, or an unintended Python exception
escaping the handler. -/
inductive Exit (α : Type)
  | ok (a : α)
  | httpError (status : Nat) (detail : String)
  | pyError (name : String)
deriving DecidableEq

/-- Observable effects of one handler execution: the exit, whether a store
connection was opened, whether it was closed again, and the store contents
after the request. -/
structure Run (α : Type) where
  exit : Exit α
  connOpened : Bool
  connClosed : Bool
  finalStore : List Record
deriving DecidableEq

/-- The `/lookup/{casting}` handler body of `main.py`.  Note the Python
shape `try: conn = sqlite3.connect(...) ... finally: conn.close()`: when
`connect` itself raises, the `except` clause raises the intended
`HTTPException(500, ...)`, but the `finally` clause then evaluates
`conn.close()` with `conn` never assigned, so an `UnboundLocalError`
replaces it and escapes the handler. -/
def lookup_casting (casting : String) (store : List Record) (db : DbBehavior) : Run Record :=
  match db with
  | .connectFail => ⟨.pyError "UnboundLocalError", false, false, store⟩
  | .queryFail => ⟨.httpError 500 "Database error", true, true, store⟩
  | .ok =>
    let res := selectByKey store casting
    match res.1 with
    | some r => ⟨.ok r, true, true, res.2⟩
    | none => ⟨.httpError 404 "Casting not found", true, true, res.2⟩

/-- The JSON object returned by the `/castings` handler. -/
structure CastingsResp where
  castings : List Summary
  total : Nat
  page : Nat
  limit : Nat
  total_pages : Nat
deriving DecidableEq, Repr

/-- The `/castings` handler body of `main.py`, after FastAPI has validated
and coerced `page` and `limit` (so both are in-range naturals here): count
query, `offset = (page - 1) * limit`, page query, and
`total_pages = (total + limit - 1) // limit`. -/
def get_castings (page limit : Nat) (store : List Record) (db : DbBehavior) : Run CastingsResp :=
  match db with
  | .connectFail => ⟨.pyError "UnboundLocalError", false, false, store⟩
  | .queryFail => ⟨.httpError 500 "Database error", true, true, store⟩
  | .ok =>
    let cnt := selectCount store
    let offset := (page - 1) * limit
    let rows := selectPage cnt.2 limit offset
    ⟨.ok ⟨rows.1, cnt.1, page, limit, (cnt.1 + limit - 1) / limit⟩, true, true, rows.2⟩

/-- The JSON object returned by the `/search` handler. -/
structure SearchResp where
  results : List Record
  query : String
  count : Nat
deriving DecidableEq, Repr

/-- The `/search` handler body of `main.py`, after FastAPI has validated
`q` (non-empty here): one `LIKE` query over four columns, results in key
order, with the echoed query and `len(results)`. -/
def search_castings (q : String) (store : List Record) (db : DbBehavior) : Run SearchResp :=
  match db with
  | .connectFail => ⟨.pyError "UnboundLocalError", false, false, store⟩
  | .queryFail => ⟨.httpError 500 "Database error", true, true, store⟩
  | .ok =>
    let rows := selectSearch store q
    ⟨.ok ⟨rows.1, q, rows.1.length⟩, true, true, rows.2⟩

/-- The castings list extracted from a successful `/castings` response. -/
def castingsOf (page limit : Nat) (store : List Record) : List Summary :=
  match (get_castings page limit store .ok).exit with
  | .ok c => c.castings
  | _ => []

/-- Outcome of a request as FastAPI's parameter layer sees it: either the
declared validation (`Query(..., ge=..., le=..., min_length=...)`) rejects
the parameters with a 422 before the handler body runs, or the handler body
runs and produces a `Run`. -/
inductive RouteResult (α : Type)
  | validationError (status : Nat)
  | handled (r : Run α)
deriving DecidableEq

/-- The `/castings` route including its FastAPI parameter declarations
`page: int = Query(1, ge=1)` and `limit: int = Query(50, ge=1, le=100)`:
missing parameters default to 1 and 50; out-of-range values are rejected
with 422 before the handler body (and hence any store access) runs. -/
def castings_route (pageParam limitParam : Option Int) (store : List Record)
    (db : DbBehavior) : RouteResult CastingsResp :=
  if pageParam.getD 1 < 1 ∨ limitParam.getD 50 < 1 ∨ 100 < limitParam.getD 50 then
    .validationError 422
  else
    .handled (get_castings (pageParam.getD 1).toNat (limitParam.getD 50).toNat store db)

/-- The `/search` route including its FastAPI parameter declaration
`q: str = Query(..., min_length=1)`: a missing or empty `q` is rejected
with 422 before the handler body runs. -/
def search_route (qParam : Option String) (store : List Record)
    (db : DbBehavior) : RouteResult SearchResp :=
  match qParam with
  | none => .validationError 422
  | some q => if q.length < 1 then .validationError 422 else .handled (search_castings q store db)

/-! Spec-side search predicate, for comparison with the handler's `LIKE`
based one.  Modelled from the spec's words: the query string appears
case-insensitively, unanchored, in any of the fields casting, years, cid,
comments. -/

/-- Case-insensitive unanchored substring containment of `q` in `hay`
(ASCII case folding), written from the spec's description of search. -/
def containsCI (hay q : String) : Bool :=
  decide ((q.data.map asciiLower) <:+: (hay.data.map asciiLower))

/-- Spec-side search predicate: `q` occurs case-insensitively as a
substring of at least one of casting, years, cid, comments. -/
def specSearchMatch (q : String) (r : Record) : Bool :=
  containsCI r.casting q || containsCI r.years q || containsCI r.cid q || containsCI r.comments q

/-! Presentation Layer (`web_app.py` at the repository root and its copy
under `src/`).  Each Flask route becomes a pure function from the submitted
request data and the observed Data Service outcome to the rendered
template name's variables (or the download/plain-text response for
`/export`). -/

/-- True for the ASCII whitespace characters removed by Python's
`str.strip()` (and ignored around the argument of `int(...)`). -/
def isPySpace (c : Char) : Bool :=
  c = ' ' || c = '\t' || c = '\n' || c = '\r' || c = '\x0b' || c = '\x0c'

/-- Python `str.strip()`: remove surrounding whitespace. -/
def pyStrip (s : String) : String :=
  String.mk (((s.data.dropWhile isPySpace).reverse.dropWhile isPySpace).reverse)

/-- Digit-run parser used by `pyInt`: accumulates decimal digits, allowing
a single underscore between two digits as Python's `int()` does. -/
def digitsAux (acc : Nat) : List Char → Option Nat
  | [] => some acc
  | '_' :: c :: cs => if c.isDigit then digitsAux (acc * 10 + (c.toNat - 48)) cs else none
  | ['_'] => none
  | c :: cs => if c.isDigit then digitsAux (acc * 10 + (c.toNat - 48)) cs else none

/-- Parse a non-empty decimal digit run (first character must be a digit). -/
def parseDigits : List Char → Option Nat
  | [] => none
  | c :: cs => if c.isDigit then digitsAux (c.toNat - 48) cs else none

/-- Python `int(s)` on ASCII input: surrounding whitespace is ignored, an
optional single sign is allowed, then a non-empty digit run; anything else
raises `ValueError`, modelled as `none`. -/
def pyInt (s : String) : Option Int :=
  match (pyStrip s).data with
  | '+' :: rest => (parseDigits rest).map (fun n => (n : Int))
  | '-' :: rest => (parseDigits rest).map (fun n => -(n : Int))
  | rest => (parseDigits rest).map (fun n => (n : Int))

/-- Body of a Data Service response as the Flask side parses it:
`response.json()` yields either the casting object (success responses) or
an error object carrying a `detail` field (FastAPI error responses). -/
inductive LookupBody
  | record (r : Record)
  | errorDetail (d : String)
deriving DecidableEq

/-- What one `requests.get` against the lookup endpoint yields: an HTTP
response with a status code and a JSON body, or a
`requests.exceptions.RequestException` (timeout, connection refused, ...)
carrying its message. -/
inductive LookupApiOutcome
  | response (status : Nat) (body : LookupBody)
  | netError (msg : String)
deriving DecidableEq

/-- An HTTP request or error outcome against the `/castings` endpoint. -/
inductive BrowseApiOutcome
  | response (status : Nat) (body : CastingsResp)
  | netError (msg : String)
deriving DecidableEq

/-- An HTTP request or error outcome against the `/search` endpoint. -/
inductive SearchApiOutcome
  | response (status : Nat) (body : SearchResp)
  | netError (msg : String)
deriving DecidableEq

/-- A request to a form route: a GET, or a POST whose form field is absent
(`request.form.get` returned `None`) or carries a string. -/
inductive FormReq
  | get
  | post (field : Option String)
deriving DecidableEq

/-- What the lookup form flow does before any rendering: either it rejects
the input locally (no HTTP request is made to the Data Service), or it
issues `requests.get(f'.../lookup/{casting.strip()}')` with the given path
parameter. -/
inductive IndexAction
  | localError (msg : String)
  | apiCall (castingPath : String)
deriving DecidableEq

/-- The local-input handling of the index route's POST branch (identical in
both copies): `casting = request.form.get('casting'); if not casting:`
rejects only a missing or literally empty value; otherwise the Data
Service is called with `casting.strip()` as the path parameter. -/
def index_submit (field : Option String) : IndexAction :=
  match field with
  | none => .localError "Please enter a casting number"
  | some s =>
    if s = "" then .localError "Please enter a casting number"
    else .apiCall (pyStrip s)

/-- Variables with which `index.html` is rendered. -/
inductive IndexRender
  | page (data : Option LookupBody) (error : Option String)
deriving DecidableEq

/-- The index route of the root copy (`web_app.py`). -/
def index_flow_root (req : FormReq) (o : LookupApiOutcome) : IndexRender :=
  match req with
  | .get => .page none none
  | .post field =>
    match field with
    | none => .page none (some "Please enter a casting number")
    | some s =>
      if s = "" then .page none (some "Please enter a casting number")
      else
        match o with
        | .netError m => .page none (some ("Unable to connect to API: " ++ m))
        | .response status body =>
          if status = 200 then .page (some body) none
          else if status = 404 then .page none (some "Casting not found")
          else
            .page none (some (match body with
              | .errorDetail d => d
              | .record _ => "API Error: " ++ toString status))

/-- The index route of the `src/` copy (`src/web_app.py`), whose code is
identical to the root copy's. -/
def index_flow_src (req : FormReq) (o : LookupApiOutcome) : IndexRender :=
  match req with
  | .get => .page none none
  | .post field =>
    match field with
    | none => .page none (some "Please enter a casting number")
    | some s =>
      if s = "" then .page none (some "Please enter a casting number")
      else
        match o with
        | .netError m => .page none (some ("Unable to connect to API: " ++ m))
        | .response status body =>
          if status = 200 then .page (some body) none
          else if status = 404 then .page none (some "Casting not found")
          else
            .page none (some (match body with
              | .errorDetail d => d
              | .record _ => "API Error: " ++ toString status))

/-- The page/limit pair the browse route sends to the Data Service:
`page = request.args.get('page', 1, type=int)` (Werkzeug returns the
default 1 when the parameter is absent or `int(...)` raises) and the fixed
`limit = 20`. -/
def browse_request (pageParam : Option String) : Int × Nat :=
  ((pageParam.bind pyInt).getD 1, 20)

/-- Variables with which `browse.html` is rendered. -/
inductive BrowseRender
  | page (payload : Option CastingsResp) (error : Option String)
deriving DecidableEq

/-- The browse route of the root copy. -/
def browse_flow_root (o : BrowseApiOutcome) : BrowseRender :=
  match o with
  | .netError m => .page none (some ("Unable to connect to API: " ++ m))
  | .response status body =>
    if status = 200 then .page (some body) none
    else .page none (some ("API Error: " ++ toString status))

/-- The browse route of the `src/` copy, identical to the root copy's. -/
def browse_flow_src (o : BrowseApiOutcome) : BrowseRender :=
  match o with
  | .netError m => .page none (some ("Unable to connect to API: " ++ m))
  | .response status body =>
    if status = 200 then .page (some body) none
    else .page none (some ("API Error: " ++ toString status))

/-- Variables with which `search.html` is rendered, or the crash of the
`render_template` call itself. -/
inductive SearchRender
  | page (results : Option (List Record)) (query : Option String) (count : Option Nat)
      (error : Option String)
  | typeErrorDuplicateQuery
deriving DecidableEq

/-- The search route of the root copy.  On a 200 response its success line
is `render_template('search.html', query=query, **data)`, and `data`
always carries a `query` key, so Python raises `TypeError: got multiple
values for keyword argument` before rendering; on a transport error it
renders without the `query` variable. -/
def search_flow_root (req : FormReq) (o : SearchApiOutcome) : SearchRender :=
  match req with
  | .get => .page none none none none
  | .post field =>
    match field with
    | none => .page none none none none
    | some q =>
      if q = "" then .page none none none none
      else
        match o with
        | .netError m => .page none none none (some ("Unable to connect to API: " ++ m))
        | .response status _ =>
          if status = 200 then .typeErrorDuplicateQuery
          else .page none (some q) none (some ("API Error: " ++ toString status))

/-- The search route of the `src/` copy.  On a 200 response it renders
`render_template('search.html', **data)` (results, echoed query, count);
on a transport error it renders the error together with the `query`
variable. -/
def search_flow_src (req : FormReq) (o : SearchApiOutcome) : SearchRender :=
  match req with
  | .get => .page none none none none
  | .post field =>
    match field with
    | none => .page none none none none
    | some q =>
      if q = "" then .page none none none none
      else
        match o with
        | .netError m => .page none (some q) none (some ("Unable to connect to API: " ++ m))
        | .response status body =>
          if status = 200 then .page (some body.results) (some body.query) (some body.count) none
          else .page none (some q) none (some ("API Error: " ++ toString status))

/-- Response of the `/export/<casting>` route: a JSON attachment download,
or a plain-text message with a status code (no JSON body). -/
inductive ExportResult
  | download (body : LookupBody) (filename : String)
  | plain (msg : String) (status : Nat)
deriving DecidableEq

/-- The export route of the root copy: a 200 response is re-serialised via
`jsonify` and sent with the attachment filename; every non-200 response is
answered with the plain text 404; a `RequestException` with the plain text
500. -/
def export_flow_root (casting : String) (o : LookupApiOutcome) : ExportResult :=
  match o with
  | .netError _ => .plain "Error: Unable to fetch data" 500
  | .response status body =>
    if status = 200 then .download body ("tesla_casting_" ++ casting ++ ".json")
    else .plain "Error: Casting not found" 404

/-- The export route of the `src/` copy, identical to the root copy's. -/
def export_flow_src (casting : String) (o : LookupApiOutcome) : ExportResult :=
  match o with
  | .netError _ => .plain "Error: Unable to fetch data" 500
  | .response status body =>
    if status = 200 then .download body ("tesla_casting_" ++ casting ++ ".json")
    else .plain "Error: Casting not found" 404

/-- Rule paths registered by the root copy (`web_app.py`). -/
def routes_root : List String :=
  ["/", "/browse", "/search", "/export/<casting>"]

/-- Rule paths registered by the `src/` copy, which additionally serves the
logo at `/teslamotors.png`. -/
def routes_src : List String :=
  ["/", "/browse", "/search", "/export/<casting>", "/teslamotors.png"]

/-! Helper lemmas. -/

theorem charListLe_total : ∀ as bs, charListLe as bs = true ∨ charListLe bs as = true := by
  intro as
  induction as with
  | nil => intro bs; exact Or.inl rfl
  | cons a as ih =>
    intro bs
    cases bs with
    | nil => exact Or.inr rfl
    | cons b bs =>
      rcases Nat.lt_trichotomy a.toNat b.toNat with h | h | h
      · exact Or.inl (by simp [charListLe, h])
      · rcases ih bs with h' | h'
        · exact Or.inl (by simp [charListLe, h, h'])
        · exact Or.inr (by simp [charListLe, h, h'])
      · exact Or.inr (by simp [charListLe, h])

theorem charListLe_trans :
    ∀ as bs cs, charListLe as bs = true → charListLe bs cs = true →
      charListLe as cs = true := by
  intro as
  induction as with
  | nil => intro bs cs _ _; rfl
  | cons a as ih =>
    intro bs cs h1 h2
    cases bs with
    | nil => simp [charListLe] at h1
    | cons b bs =>
      cases cs with
      | nil => simp [charListLe] at h2
      | cons c cs =>
        simp only [charListLe] at h1 h2 ⊢
        have split1 : a.toNat < b.toNat ∨ (a.toNat = b.toNat ∧ charListLe as bs = true) := by
          by_cases hab : a.toNat < b.toNat
          · exact Or.inl hab
          · by_cases hba : b.toNat < a.toNat
            · simp [hab, hba] at h1
            · exact Or.inr ⟨by omega, by simpa [hab, hba] using h1⟩
        have split2 : b.toNat < c.toNat ∨ (b.toNat = c.toNat ∧ charListLe bs cs = true) := by
          by_cases hbc : b.toNat < c.toNat
          · exact Or.inl hbc
          · by_cases hcb : c.toNat < b.toNat
            · simp [hbc, hcb] at h2
            · exact Or.inr ⟨by omega, by simpa [hbc, hcb] using h2⟩
        rcases split1 with hab | ⟨hab, h1'⟩ <;> rcases split2 with hbc | ⟨hbc, h2'⟩
        · simp [show a.toNat < c.toNat from by omega]
        · simp [show a.toNat < c.toNat from by omega]
        · simp [show a.toNat < c.toNat from by omega]
        · have hnac : ¬ a.toNat < c.toNat := by omega
          have hnca : ¬ c.toNat < a.toNat := by omega
          simp only [hnac, hnca, if_false]
          exact ih bs cs h1' h2'

instance : IsTotal Record keyLe :=
  ⟨fun a b => charListLe_total a.casting.data b.casting.data⟩

instance : IsTrans Record keyLe :=
  ⟨fun _ _ _ h1 h2 => charListLe_trans _ _ _ h1 h2⟩

theorem sortByKey_perm (store : List Record) : List.Perm (sortByKey store) store :=
  List.perm_insertionSort keyLe store

theorem sortByKey_sorted (store : List Record) : (sortByKey store).Pairwise keyLe :=
  List.sorted_insertionSort keyLe store

theorem find?_eq_of_mem_nodup :
    ∀ store : List Record, (store.map Record.casting).Nodup →
      ∀ r ∈ store, store.find? (fun x => x.casting == r.casting) = some r := by
  intro store
  induction store with
  | nil => intro _ r hr; cases hr
  | cons a tl ih =>
    intro hnd r hr
    rw [List.map_cons, List.nodup_cons] at hnd
    rcases List.mem_cons.mp hr with rfl | hmem
    · rw [List.find?_cons_of_pos _ (by simp)]
    · have hne : a.casting ≠ r.casting := by
        intro he
        exact hnd.1 (he ▸ List.mem_map.mpr ⟨r, hmem, rfl⟩)
      rw [List.find?_cons_of_neg _ (by simpa using hne)]
      exact ih hnd.2 r hmem

theorem chunks_flatten {α : Type} (k : Nat) (_hk : 1 ≤ k) :
    ∀ (n : Nat) (l : List α), l.length ≤ n * k →
      ((List.range n).map (fun i => (l.drop (i * k)).take k)).flatten = l := by
  intro n
  induction n with
  | zero =>
    intro l h
    simp only [Nat.zero_mul, Nat.le_zero, List.length_eq_zero] at h
    simp [h]
  | succ n ih =>
    intro l h
    rw [List.range_succ_eq_map]
    rw [List.map_cons, List.map_map, List.flatten_cons]
    simp only [Nat.zero_mul, List.drop_zero]
    have hrw : ((fun i => (l.drop (i * k)).take k) ∘ Nat.succ) =
        fun i => ((l.drop k).drop (i * k)).take k := by
      funext i
      simp only [Function.comp_apply]
      rw [List.drop_drop, Nat.succ_mul, Nat.add_comm]
    rw [hrw, ih (l.drop k) (by
      rw [List.length_drop]
      have hsm : (n + 1) * k = n * k + k := by rw [Nat.add_mul, Nat.one_mul]
      omega)]
    exact List.take_append_drop k l

theorem le_ceil_mul (total k : Nat) (hk : 1 ≤ k) :
    total ≤ ((total + k - 1) / k) * k := by
  rcases Nat.eq_zero_or_pos total with rfl | hpos
  · simp
  · have h1 := Nat.div_add_mod (total + k - 1) k
    have h2 : (total + k - 1) % k < k := Nat.mod_lt _ hk
    have h3 : (total + k - 1) / k * k = k * ((total + k - 1) / k) := Nat.mul_comm _ _
    omega

theorem likeMatch_pct (ps s : List Char) :
    likeMatch ('%' :: ps) s = s.tails.any (fun t => likeMatch ps t) := by
  simp [likeMatch]

theorem likeMatch_pct_only (s : List Char) : likeMatch ['%'] s = true := by
  rw [likeMatch_pct, List.any_eq_true]
  exact ⟨[], (List.mem_tails [] s).mpr List.nil_suffix, rfl⟩

theorem likeMatch_lit_pct :
    ∀ (q s : List Char), (∀ c ∈ q, c ≠ '%' ∧ c ≠ '_') →
      (likeMatch (q ++ ['%']) s = true ↔ (q.map asciiLower) <+: (s.map asciiLower)) := by
  intro q
  induction q with
  | nil =>
    intro s _
    simp only [List.nil_append, List.map_nil]
    constructor
    · intro _; exact List.nil_prefix
    · intro _; exact likeMatch_pct_only s
  | cons a as ih =>
    intro s hw
    have ha := hw a (List.mem_cons_self a as)
    cases s with
    | nil =>
      simp only [List.cons_append, List.map_cons, List.map_nil]
      constructor
      · intro h; simp [likeMatch, ha.1] at h
      · intro h; simp at h
    | cons c cs =>
      have hstep : likeMatch ((a :: as) ++ ['%']) (c :: cs) =
          ((asciiLower a == asciiLower c) && likeMatch (as ++ ['%']) cs) := by
        simp [likeMatch, ha.1, ha.2]
      rw [hstep, List.map_cons, List.map_cons, List.cons_prefix_cons,
        Bool.and_eq_true, beq_iff_eq]
      exact and_congr Iff.rfl (ih cs (fun c hc => hw c (List.mem_cons_of_mem a hc)))

theorem likeMatch_infix (q s : List Char) (hw : ∀ c ∈ q, c ≠ '%' ∧ c ≠ '_') :
    (likeMatch ('%' :: (q ++ ['%'])) s = true ↔
      (q.map asciiLower) <:+: (s.map asciiLower)) := by
  rw [likeMatch_pct, List.any_eq_true]
  constructor
  · rintro ⟨t, ht, hmatch⟩
    have hsuf : t <:+ s := (List.mem_tails t s).mp ht
    have hpre := (likeMatch_lit_pct q t hw).mp hmatch
    exact List.infix_iff_prefix_suffix.mpr ⟨t.map asciiLower, hpre, hsuf.map asciiLower⟩
  · intro hinf
    obtain ⟨u, v, huv⟩ := hinf
    refine ⟨s.drop u.length, (List.mem_tails _ s).mpr (List.drop_suffix _ _), ?_⟩
    apply (likeMatch_lit_pct q _ hw).mpr
    rw [List.map_drop, ← huv, List.append_assoc, List.drop_left]
    exact List.prefix_append _ _

theorem fieldLike_eq_containsCI (q : String) (hw : ∀ c ∈ q.data, c ≠ '%' ∧ c ≠ '_')
    (f : String) : fieldLike q f = containsCI f q := by
  rw [Bool.eq_iff_iff]
  show fieldLike q f = true ↔ containsCI f q = true
  unfold fieldLike likePat containsCI
  rw [decide_eq_true_eq]
  exact likeMatch_infix q.data f.data hw

theorem rowMatches_eq_spec (q : String) (hw : ∀ c ∈ q.data, c ≠ '%' ∧ c ≠ '_')
    (r : Record) : rowMatches q r = specSearchMatch q r := by
  unfold rowMatches specSearchMatch
  rw [fieldLike_eq_containsCI q hw, fieldLike_eq_containsCI q hw,
    fieldLike_eq_containsCI q hw, fieldLike_eq_containsCI q hw]
  cases containsCI r.casting q <;> cases containsCI r.years q <;>
    cases containsCI r.cid q <;> cases containsCI r.comments q <;> rfl

/-! Claim theorems. -/

/-- Claim C3: for every key present in the store (whose keys are distinct,
as the `casting` column is the primary key), `/lookup/{casting}` returns
the full stored record with exactly the stored field values; for every key
absent from the store it raises the 404 `HTTPException`, never a partial
record. -/
theorem lookup_exact_or_404 (store : List Record)
    (hnd : (store.map Record.casting).Nodup) :
    (∀ r ∈ store, (lookup_casting r.casting store .ok).exit = .ok r) ∧
    (∀ key, key ∉ store.map Record.casting →
      (lookup_casting key store .ok).exit = .httpError 404 "Casting not found") := by
  constructor
  · intro r hr
    simp only [lookup_casting, selectByKey]
    rw [find?_eq_of_mem_nodup store hnd r hr]
  · intro key hkey
    simp only [lookup_casting, selectByKey]
    rw [List.find?_eq_none.mpr]
    intro x hx
    simp only [beq_iff_eq]
    intro he
    exact hkey (he ▸ List.mem_map.mpr ⟨x, hx, rfl⟩)

/-- Witness for C3 at a concrete two-record store. -/
theorem lookup_exact_or_404_witness :
    (lookup_casting "1050123" [⟨"1050123", "2012-2015", "ABC", "150kW", "310kW", "Al", ""⟩,
        ⟨"2050123", "2016", "DEF", "1", "2", "Fe", "x"⟩] .ok).exit =
      .ok ⟨"1050123", "2012-2015", "ABC", "150kW", "310kW", "Al", ""⟩ ∧
    (lookup_casting "9999999" [⟨"1050123", "2012-2015", "ABC", "150kW", "310kW", "Al", ""⟩,
        ⟨"2050123", "2016", "DEF", "1", "2", "Fe", "x"⟩] .ok).exit =
      .httpError 404 "Casting not found" := by
  have h := lookup_exact_or_404
    [⟨"1050123", "2012-2015", "ABC", "150kW", "310kW", "Al", ""⟩,
     ⟨"2050123", "2016", "DEF", "1", "2", "Fe", "x"⟩] (by decide)
  exact ⟨h.1 ⟨"1050123", "2012-2015", "ABC", "150kW", "310kW", "Al", ""⟩ (by decide),
    h.2 "9999999" (by decide)⟩

/-- Claim C5 (code bug): when `sqlite3.connect` itself raises, each of the
three handlers runs its `finally: conn.close()` with `conn` never
assigned, so an `UnboundLocalError` escapes in place of the intended
`HTTPException(500, ...)`, and no connection bookkeeping happens at all. -/
theorem connect_failure_unbound_local (casting q : String) (page limit : Nat)
    (store : List Record) :
    (lookup_casting casting store .connectFail).exit = .pyError "UnboundLocalError" ∧
    (get_castings page limit store .connectFail).exit = .pyError "UnboundLocalError" ∧
    (search_castings q store .connectFail).exit = .pyError "UnboundLocalError" :=
  ⟨rfl, rfl, rfl⟩

/-- Claim C9: every Data Service handler leaves the store unchanged on
every path (success, not-found, connect failure, query failure) — the
handlers only ever execute `SELECT` statements. -/
theorem handlers_read_only (casting q : String) (page limit : Nat)
    (store : List Record) (db : DbBehavior) :
    (lookup_casting casting store db).finalStore = store ∧
    (get_castings page limit store db).finalStore = store ∧
    (search_castings q store db).finalStore = store := by
  refine ⟨?_, ?_, ?_⟩ <;> cases db <;>
    first
      | rfl
      | (cases hfind : store.find? (fun r => r.casting == casting) <;>
          simp [lookup_casting, selectByKey, hfind])

/-- Claim C6: a `/castings` request with `page < 1` or `limit` outside
`[1,100]` is rejected by FastAPI's declared parameter validation with 422
before the handler body (and hence any store query) runs; likewise a
`/search` request with `q` missing or empty. -/
theorem invalid_params_rejected (pageParam limitParam : Option Int)
    (qParam : Option String) (store : List Record) (db : DbBehavior) :
    (pageParam.getD 1 < 1 ∨ limitParam.getD 50 < 1 ∨ 100 < limitParam.getD 50 →
      castings_route pageParam limitParam store db = .validationError 422) ∧
    (qParam = none ∨ qParam = some "" →
      search_route qParam store db = .validationError 422) := by
  constructor
  · intro h
    simp only [castings_route]
    rw [if_pos h]
  · rintro (rfl | rfl) <;> simp [search_route]

/-- Witness for C6: `page=0`, `limit=101` and an empty `q` are rejected. -/
theorem invalid_params_rejected_witness :
    castings_route (some 0) (some 101) [] .ok = .validationError 422 ∧
    search_route (some "") [] .ok = .validationError 422 :=
  ⟨(invalid_params_rejected (some 0) (some 101) (some "") [] .ok).1 (by decide),
   (invalid_params_rejected (some 0) (some 101) (some "") [] .ok).2 (Or.inr rfl)⟩

/-- Claim C7 counterexample: a lookup form input consisting only of
whitespace is not rejected locally — the flow trims it to the empty string
and still issues a Data Service call (`GET /lookup/` with an empty path
parameter). -/
theorem whitespace_input_calls_api :
    index_submit (some " ") = .apiCall "" := by decide

/-- Claim C7 (amended): the lookup flow rejects locally — making no Data
Service call — exactly the missing and the literally empty form input; any
other input, including whitespace-only input, is sent to the Data Service
with surrounding whitespace trimmed. -/
theorem index_local_rejection (s : String) (hs : s ≠ "") :
    index_submit none = .localError "Please enter a casting number" ∧
    index_submit (some "") = .localError "Please enter a casting number" ∧
    index_submit (some s) = .apiCall (pyStrip s) := by
  refine ⟨rfl, rfl, ?_⟩
  simp [index_submit, hs]

/-- Witness for the amended C7 at the input `"x"`. -/
theorem index_local_rejection_witness :
    index_submit (some "x") = .apiCall "x" := by
  have h := (index_local_rejection "x" (by decide)).2.2
  simpa using h

/-- Claim C10: a browse-page query parameter that is absent or that
Python's `int()` cannot parse is silently replaced by the default 1, and
the Data Service is asked for page 1 with the fixed page size 20. -/
theorem browse_page_param_default (pageParam : Option String)
    (h : pageParam.bind pyInt = none) :
    browse_request pageParam = (1, 20) := by
  simp [browse_request, h]

/-- Witness for C10: an absent parameter and the unparseable `"abc"` both
yield the default request. -/
theorem browse_page_param_default_witness :
    browse_request none = (1, 20) ∧ browse_request (some "abc") = (1, 20) :=
  ⟨browse_page_param_default none rfl,
   browse_page_param_default (some "abc") (by decide)⟩

/-- Claim C4 counterexample: when the Data Service lookup fails with a 500
(store error), the export route answers 404 "Casting not found" — not the
500 the claim promises for Data Service failures other than NotFound. -/
theorem export_500_becomes_404 :
    export_flow_root "X" (.response 500 (.errorDetail "Database error: disk I/O error")) =
      .plain "Error: Casting not found" 404 ∧ (404 : Nat) ≠ 500 :=
  ⟨rfl, by decide⟩

/-- Claim C4 (amended): on a 200 lookup response the export route returns
exactly the response's JSON payload as an attachment named
`tesla_casting_<casting>.json`; on any non-200 response — NotFound and
store errors alike — it returns 404 with a plain-text message and no JSON
body; on a transport failure (`RequestException`) it returns 500 with a
plain-text message. -/
theorem export_flow_spec (casting : String) (r : Record) (status : Nat)
    (body : LookupBody) (hs : status ≠ 200) :
    export_flow_root casting (.response 200 (.record r)) =
      .download (.record r) ("tesla_casting_" ++ casting ++ ".json") ∧
    export_flow_root casting (.response status body) = .plain "Error: Casting not found" 404 ∧
    (∀ m, export_flow_root casting (.netError m) = .plain "Error: Unable to fetch data" 500) := by
  refine ⟨rfl, ?_, fun _ => rfl⟩
  simp [export_flow_root, hs]

/-- Witness for the amended C4 at a concrete record and a 500 response. -/
theorem export_flow_spec_witness :
    export_flow_root "1050123"
        (.response 200 (.record ⟨"1050123", "2012-2015", "ABC", "150kW", "310kW", "Al", ""⟩)) =
      .download (.record ⟨"1050123", "2012-2015", "ABC", "150kW", "310kW", "Al", ""⟩)
        "tesla_casting_1050123.json" ∧
    export_flow_root "1050123" (.response 500 (.errorDetail "Database error: x")) =
      .plain "Error: Casting not found" 404 := by
  have h := export_flow_spec "1050123"
    ⟨"1050123", "2012-2015", "ABC", "150kW", "310kW", "Al", ""⟩ 500
    (.errorDetail "Database error: x") (by decide)
  exact ⟨by simpa using h.1, h.2.1⟩

/-- Claim C8 counterexample: the two Presentation Layer copies are not
behaviorally equivalent — on a successful search POST the root copy's
render call raises a duplicate-keyword-argument `TypeError` while the
`src/` copy renders the results page. -/
theorem search_copies_differ :
    search_flow_root (.post (some "x")) (.response 200 ⟨[], "x", 0⟩) ≠
      search_flow_src (.post (some "x")) (.response 200 ⟨[], "x", 0⟩) := by
  decide

/-- Claim C8 (amended): the two copies agree on the index, browse and
export flows for every request and Data Service outcome, but differ on the
search route — on a 200 response the root copy raises the duplicate
`query` keyword `TypeError` where the `src/` copy renders the result page,
and on a transport error the root copy omits the `query` template variable
that the `src/` copy passes — and the `src/` copy registers an extra
`/teslamotors.png` route. -/
theorem copies_equiv_except_search (q m : String) (hq : q ≠ "") :
    (∀ req o, index_flow_root req o = index_flow_src req o) ∧
    (∀ o, browse_flow_root o = browse_flow_src o) ∧
    (∀ casting o, export_flow_root casting o = export_flow_src casting o) ∧
    (∀ body, search_flow_root (.post (some q)) (.response 200 body) =
        .typeErrorDuplicateQuery ∧
      search_flow_src (.post (some q)) (.response 200 body) =
        .page (some body.results) (some body.query) (some body.count) none) ∧
    (search_flow_root (.post (some q)) (.netError m) =
        .page none none none (some ("Unable to connect to API: " ++ m)) ∧
      search_flow_src (.post (some q)) (.netError m) =
        .page none (some q) none (some ("Unable to connect to API: " ++ m))) ∧
    routes_root ≠ routes_src := by
  refine ⟨fun _ _ => rfl, fun _ => rfl, fun _ _ => rfl, ?_, ?_, by decide⟩
  · intro body
    constructor <;> simp [search_flow_root, search_flow_src, hq]
  · constructor <;> simp [search_flow_root, search_flow_src, hq]

/-- Witness for the amended C8 at a concrete query and error message. -/
theorem copies_equiv_except_search_witness :
    search_flow_root (.post (some "x")) (.netError "timeout") =
      .page none none none (some "Unable to connect to API: timeout") ∧
    routes_root ≠ routes_src := by
  have h := copies_equiv_except_search "x" "timeout" (by decide)
  exact ⟨by simpa using h.2.2.2.2.1.1, h.2.2.2.2.2⟩

/-- Claim C1: for every store and every `page ≥ 1`, `1 ≤ limit ≤ 100`, the
`/castings` handler returns the length-`≤ limit` slice of the key-ascending
record list, projected to `{casting, years, cid}`, at offset
`(page-1)*limit`; concatenating the pages `1, ..., total_pages` in order
reproduces the whole projected key-ascending record list (which is a
permutation of the store, hence no duplicates or omissions), and
`total_pages = ⌈total / limit⌉`. -/
theorem castings_pagination (store : List Record) (page limit : Nat)
    (_hp : 1 ≤ page) (hl1 : 1 ≤ limit) (_hl2 : limit ≤ 100) :
    ∃ c : CastingsResp,
      (get_castings page limit store .ok).exit = .ok c ∧
      c.castings = (((sortByKey store).map proj).drop ((page - 1) * limit)).take limit ∧
      c.castings.length ≤ limit ∧
      c.total = store.length ∧
      c.total_pages = store.length ⌈/⌉ limit ∧
      ((List.range c.total_pages).map (fun i => castingsOf (i + 1) limit store)).flatten =
        (sortByKey store).map proj ∧
      List.Perm (sortByKey store) store ∧
      (sortByKey store).Pairwise keyLe := by
  refine ⟨⟨(((sortByKey store).drop ((page - 1) * limit)).take limit).map proj,
    store.length, page, limit, (store.length + limit - 1) / limit⟩, rfl, ?_, ?_, rfl, ?_, ?_,
    sortByKey_perm store, sortByKey_sorted store⟩
  · rw [List.map_take, List.map_drop]
  · rw [List.length_map, List.length_take]
    exact Nat.min_le_left _ _
  · exact (Nat.ceilDiv_eq_add_pred_div _ _).symm
  · have hpage : ∀ i : Nat, castingsOf (i + 1) limit store =
        (((sortByKey store).map proj).drop (i * limit)).take limit := by
      intro i
      show (((sortByKey store).drop ((i + 1 - 1) * limit)).take limit).map proj = _
      rw [List.map_take, List.map_drop]
      simp
    have hlen : ((sortByKey store).map proj).length = store.length := by
      rw [List.length_map]
      exact (sortByKey_perm store).length_eq
    simp only [hpage]
    exact chunks_flatten limit hl1 _ _ (by rw [hlen]; exact le_ceil_mul store.length limit hl1)

/-- Witness for C1 at a concrete two-record store, page 2, limit 1. -/
theorem castings_pagination_witness :
    ∃ c : CastingsResp,
      (get_castings 2 1 [⟨"B", "y", "c", "l", "h", "m", "z"⟩,
          ⟨"A", "y2", "c2", "l2", "h2", "m2", "z2"⟩] .ok).exit = .ok c ∧
      c.castings = (((sortByKey [⟨"B", "y", "c", "l", "h", "m", "z"⟩,
          ⟨"A", "y2", "c2", "l2", "h2", "m2", "z2"⟩]).map proj).drop ((2 - 1) * 1)).take 1 ∧
      c.castings.length ≤ 1 ∧
      c.total = ([⟨"B", "y", "c", "l", "h", "m", "z"⟩,
          ⟨"A", "y2", "c2", "l2", "h2", "m2", "z2"⟩] : List Record).length ∧
      c.total_pages = ([⟨"B", "y", "c", "l", "h", "m", "z"⟩,
          ⟨"A", "y2", "c2", "l2", "h2", "m2", "z2"⟩] : List Record).length ⌈/⌉ 1 ∧
      ((List.range c.total_pages).map (fun i => castingsOf (i + 1) 1
          [⟨"B", "y", "c", "l", "h", "m", "z"⟩,
           ⟨"A", "y2", "c2", "l2", "h2", "m2", "z2"⟩])).flatten =
        (sortByKey [⟨"B", "y", "c", "l", "h", "m", "z"⟩,
          ⟨"A", "y2", "c2", "l2", "h2", "m2", "z2"⟩]).map proj ∧
      List.Perm (sortByKey [⟨"B", "y", "c", "l", "h", "m", "z"⟩,
          ⟨"A", "y2", "c2", "l2", "h2", "m2", "z2"⟩])
        [⟨"B", "y", "c", "l", "h", "m", "z"⟩, ⟨"A", "y2", "c2", "l2", "h2", "m2", "z2"⟩] ∧
      (sortByKey [⟨"B", "y", "c", "l", "h", "m", "z"⟩,
          ⟨"A", "y2", "c2", "l2", "h2", "m2", "z2"⟩]).Pairwise keyLe :=
  castings_pagination [⟨"B", "y", "c", "l", "h", "m", "z"⟩,
    ⟨"A", "y2", "c2", "l2", "h2", "m2", "z2"⟩] 2 1 (by decide) (by decide) (by decide)

/-- Claim C2 counterexample: the query `"_"` is a `LIKE` wildcard, so the
handler returns a record in which `"_"` does not occur as a substring of
any searchable field — `/search` does not implement plain substring
search for wildcard-bearing queries. -/
theorem search_wildcard_not_substring :
    (search_castings "_" [⟨"AB", "Y2", "C3", "L", "H", "M", "ok"⟩] .ok).exit =
      .ok ⟨[⟨"AB", "Y2", "C3", "L", "H", "M", "ok"⟩], "_", 1⟩ ∧
    specSearchMatch "_" ⟨"AB", "Y2", "C3", "L", "H", "M", "ok"⟩ = false :=
  ⟨by decide, by decide⟩

/-- Claim C2 (amended): for every store and every non-empty query `q`
containing neither of the SQL `LIKE` wildcards `%` and `_`, the `/search`
handler returns exactly the full records in which `q` occurs
(ASCII-)case-insensitively as an unanchored substring of casting, years,
cid or comments, in key-ascending order over a permutation of the store,
with the echoed query and the match count; in particular a query matching
zero records yields an empty list and count 0, not an error.  For a query
containing `%` or `_` the wildcards are interpreted by `LIKE` instead. -/
theorem search_substring_spec (store : List Record) (q : String) (_hq : q ≠ "")
    (hw : ∀ c ∈ q.data, c ≠ '%' ∧ c ≠ '_') :
    (search_castings q store .ok).exit =
      .ok ⟨(sortByKey store).filter (specSearchMatch q), q,
        ((sortByKey store).filter (specSearchMatch q)).length⟩ ∧
    ((sortByKey store).filter (specSearchMatch q)).Pairwise keyLe ∧
    List.Perm (sortByKey store) store := by
  have hfilter : (sortByKey store).filter (rowMatches q) =
      (sortByKey store).filter (specSearchMatch q) :=
    List.filter_congr (fun r _ => rowMatches_eq_spec q hw r)
  refine ⟨?_, (sortByKey_sorted store).filter _, sortByKey_perm store⟩
  simp only [search_castings, selectSearch]
  rw [hfilter]

/-- Witness for the amended C2: the lower-case query `"c3"` matches the
record through its `cid` field `"C3"`, case-insensitively. -/
theorem search_substring_spec_witness :
    (search_castings "c3" [⟨"AB", "Y2", "C3", "L", "H", "M", "ok"⟩] .ok).exit =
      .ok ⟨[⟨"AB", "Y2", "C3", "L", "H", "M", "ok"⟩], "c3", 1⟩ := by
  have h := search_substring_spec [⟨"AB", "Y2", "C3", "L", "H", "M", "ok"⟩] "c3"
    (by decide) (by decide)
  rw [h.1]
  decide

end TeslaCasting
